import Mathlib

/-!
Shallow embedding of `main.go` of magnumopus/consul-alerting.

The file models the bootstrap (`main`), the shutdown path (`shutdown`,
`ShutdownOpts`), the signal dispatch loop, the startup connect-retry loop and
the dev-mode test fixtures (`registerTestServices`) as pure Lean functions,
and proves properties of them.  Concurrency is modelled by recording, for each
goroutine `main` starts, the entity it watches and the `WatchOptions` it was
given; effectful paths (`shutdown`) are modelled as the list of externally
visible actions in program order.
-/

namespace ConsulAlerting

/-- Per-service override configuration.
Modelled from the spec: the per-service configuration type lives in a
configuration source file that is not under `src/`; the spec describes it as
"optional per-service overrides including a watch tags separately flag and an
ignore-list of tags", and `main` reads the fields `ChangeThreshold`,
`DistinctTags` and `IgnoredTags` from it. -/
structure ServiceConfig where
  name : String
  changeThreshold : Nat
  distinctTags : Bool
  ignoredTags : List String
  deriving DecidableEq

/-- The fields of `Config` that `main` and `shutdown` read. -/
structure Config where
  consulAddress : String
  logLevel : String
  devMode : Bool
  globalMode : Bool
  changeThreshold : Nat
  services : List ServiceConfig
  deriving DecidableEq

/-- Modelled from the spec: `config.getServiceConfig(service)` is defined in a
configuration source file that is not under `src/`; per the spec it returns the
optional per-service override for the given service name when one is
configured, and nothing otherwise. -/
def Config.getServiceConfig (c : Config) (service : String) : Option ServiceConfig :=
  c.services.find? (fun sc => sc.name == service)

/-- Modelled from the spec: the helper `contains(list, tag)` called at
src/main.go line 137 is defined in a source file that is not under `src/`; per
the spec the ignore-list of tags excludes exactly its member tags from being
watched, so `contains` is list membership. -/
def contains (l : List String) (s : String) : Bool :=
  l.elem s

/-- The per-watch fields of `WatchOptions` (src/main.go): the change threshold
bound to the watch, and whether `stopCh` was set to the shared shutdown stop
channel.  There is exactly one stop channel per process
(`shutdownOpts.stopCh`), so a `Bool` records channel identity faithfully;
`false` models a nil `stopCh`.  The `client` and `handlers` fields are
process-wide shared handles identical for every watch and carry no per-watch
information. -/
structure WatchOptions where
  changeThreshold : Nat
  hasStopCh : Bool
  deriving DecidableEq

/-- The entity a started watch goroutine observes: `WatchService(name, tag, _)`
or `WatchNode(name, _)`.  A whole-service watch is started with tag `""`. -/
inductive WatchKind where
  | service (name tag : String)
  | node (name : String)
  deriving DecidableEq

/-- One watch goroutine started by `main`: the entity and the options it was
created with. -/
structure Watch where
  kind : WatchKind
  opts : WatchOptions
  deriving DecidableEq

/-- `ShutdownOpts` (src/main.go lines 196-199): the shutdown coordinator
state.  The shared stop channel is left implicit (one per process);
`count` is the number of watches registered for shutdown. -/
structure ShutdownOpts where
  count : Nat
  deriving DecidableEq

/-- The watches started by one iteration of the service loop of `main`
(src/main.go lines 130-156) for one entry of the discovered `services` map.
When a per-service config exists, the tag list is non-empty and the
`DistinctTags` flag is set, one `WatchService` goroutine is started per
non-ignored tag with the per-service threshold; otherwise a single
`WatchService` goroutine with tag `""` and the global threshold.  Every watch
in this loop gets `stopCh = shutdownOpts.stopCh` and increments
`shutdownOpts.count` by one, so the count contribution is the length of the
returned list. -/
def watchesForService (config : Config) (service : String) (tags : List String) :
    List Watch :=
  match config.getServiceConfig service with
  | some serviceConfig =>
    if 0 < tags.length ∧ serviceConfig.distinctTags = true then
      (tags.filter (fun tag => !(contains serviceConfig.ignoredTags tag))).map
        (fun tag =>
          { kind := WatchKind.service service tag
            opts := { changeThreshold := serviceConfig.changeThreshold
                      hasStopCh := true } })
    else
      [{ kind := WatchKind.service service ""
         opts := { changeThreshold := config.changeThreshold, hasStopCh := true } }]
  | none =>
      [{ kind := WatchKind.service service ""
         opts := { changeThreshold := config.changeThreshold, hasStopCh := true } }]

/-- The watch started by one iteration of the node loop of `main`
(src/main.go lines 160-171): the options start with a nil `stopCh`, and only
in global mode are `opts.stopCh` set and `shutdownOpts.count` incremented. -/
def watchForNode (config : Config) (node : String) : Watch :=
  { kind := WatchKind.node node
    opts := { changeThreshold := config.changeThreshold
              hasStopCh := config.globalMode } }

/-- The outcome of the watch-initialization part of `main` (src/main.go lines
125-171): all watch goroutines started, and the final `shutdownOpts.count`. -/
structure BootstrapResult where
  watches : List Watch
  shutdownCount : Nat
  deriving DecidableEq

/-- The watch-initialization part of `main` (src/main.go lines 125-171),
given the discovery result: the `services` map (as an association list, one
entry per service name) and the `nodes` list.  `shutdownOpts.count` is
incremented once per service watch, and once per node watch in global mode
only. -/
def bootstrap (config : Config) (services : List (String × List String))
    (nodes : List String) : BootstrapResult :=
  let serviceWatches := (services.map (fun p => watchesForService config p.1 p.2)).flatten
  let nodeWatches := nodes.map (watchForNode config)
  { watches := serviceWatches ++ nodeWatches
    shutdownCount :=
      serviceWatches.length + (if config.globalMode then nodes.length else 0) }

/-- An externally visible action of `shutdown`. -/
inductive ShutdownEvent where
  | checkDeregister (name : String)
  | serviceDeregister (name : String)
  | stopSignal
  | exitProcess (code : Nat)
  deriving DecidableEq

/-- The sends performed by the for-loop of `shutdown` (src/main.go lines
210-212): one send of the empty struct on `opts.stopCh` per iteration, `n`
iterations. -/
def sendStopSignals : Nat → List ShutdownEvent
  | 0 => []
  | n + 1 => ShutdownEvent.stopSignal :: sendStopSignals n

/-- The sequence of externally visible actions of `shutdown` (src/main.go
lines 201-215), in program order: dev-mode deregistrations first (if
`config.DevMode`), then `opts.count * 2` sends on the stop channel, then
`os.Exit(0)`. -/
def shutdownTrace (config : Config) (opts : ShutdownOpts) : List ShutdownEvent :=
  (if config.devMode then
    [ShutdownEvent.checkDeregister "memory usage",
     ShutdownEvent.serviceDeregister "redis",
     ShutdownEvent.serviceDeregister "nginx"]
   else []) ++
  sendStopSignals (opts.count * 2) ++
  [ShutdownEvent.exitProcess 0]

/-- POSIX signal number of SIGINT. -/
def SIGINT : Nat := 2
/-- POSIX signal number of SIGQUIT. -/
def SIGQUIT : Nat := 3
/-- POSIX signal number of SIGTERM. -/
def SIGTERM : Nat := 15

/-- What one iteration of the signal loop does with the received signal. -/
inductive SignalOutcome where
  | shutdownWith (trace : List ShutdownEvent)
  | continueRunning
  deriving DecidableEq

/-- The switch of the signal loop of `main` (src/main.go lines 178-192):
SIGINT, SIGTERM and SIGQUIT each call `shutdown(client, config, shutdownOpts)`
with the same arguments; any other signal only logs "Unknown signal." and the
loop continues. -/
def handleSignal (config : Config) (opts : ShutdownOpts) (sig : Nat) :
    SignalOutcome :=
  if sig = SIGINT then SignalOutcome.shutdownWith (shutdownTrace config opts)
  else if sig = SIGTERM then SignalOutcome.shutdownWith (shutdownTrace config opts)
  else if sig = SIGQUIT then SignalOutcome.shutdownWith (shutdownTrace config opts)
  else SignalOutcome.continueRunning

/-- The startup connect loop of `main` (src/main.go lines 67-75) simulated for
`fuel` iterations, starting at attempt `i`.  `leaderOk j` tells whether the
j-th `client.Status().Leader()` call succeeds.  The loop body on failure only
logs and sleeps ten seconds; its sole exit is the `break` on success, so the
result is `some j` when attempt `j` succeeds within the fuel, and `none` when
every attempt seen so far failed and the loop is still retrying.  The result
type has no aborting outcome because the loop contains no exit path. -/
def connectLoop (leaderOk : Nat → Bool) (i : Nat) : Nat → Option Nat
  | 0 => none
  | fuel + 1 => if leaderOk i then some i else connectLoop leaderOk (i + 1) fuel

/-- A health-check block passed to the agent API (src/main.go). -/
structure AgentServiceCheck where
  script : String
  interval : String
  deriving DecidableEq

/-- A check registration passed to `CheckRegister` (src/main.go). -/
structure AgentCheckRegistration where
  name : String
  check : AgentServiceCheck
  deriving DecidableEq

/-- A service registration passed to `ServiceRegister` (src/main.go). -/
structure AgentServiceRegistration where
  name : String
  tags : List String
  port : Nat
  check : AgentServiceCheck
  deriving DecidableEq

/-- A registration call against the local agent. -/
inductive AgentCall where
  | checkRegister (r : AgentCheckRegistration)
  | serviceRegister (r : AgentServiceRegistration)
  deriving DecidableEq

/-- `registerTestServices` (src/main.go lines 217-245): the registration calls
it issues, in program order. -/
def registerTestServices : List AgentCall :=
  [AgentCall.checkRegister
     { name := "memory usage"
       check := { script := "exit $(shuf -i 0-2 -n 1)", interval := "20s" } },
   AgentCall.serviceRegister
     { name := "redis", tags := ["alpha", "beta"], port := 2000
       check := { script := "exit $(shuf -i 0-2 -n 1)", interval := "10s" } },
   AgentCall.serviceRegister
     { name := "nginx", tags := ["gamma", "delta"], port := 3000
       check := { script := "exit $(shuf -i 0-2 -n 1)", interval := "8s" } }]

/-- A test fixture in the registry: a named check or a named service. -/
inductive Fixture where
  | check (name : String)
  | service (name : String)
  deriving DecidableEq

/-- The fixture a registration call creates. -/
def fixtureOfRegister : AgentCall → Fixture
  | AgentCall.checkRegister r => Fixture.check r.name
  | AgentCall.serviceRegister r => Fixture.service r.name

/-- The fixture a shutdown event removes, if it is a deregistration. -/
def fixtureOfDereg : ShutdownEvent → Option Fixture
  | ShutdownEvent.checkDeregister n => some (Fixture.check n)
  | ShutdownEvent.serviceDeregister n => some (Fixture.service n)
  | ShutdownEvent.stopSignal => none
  | ShutdownEvent.exitProcess _ => none

/-- The fixtures registered by `registerTestServices`, in order. -/
def registeredFixtures : List Fixture :=
  registerTestServices.map fixtureOfRegister

/-- The fixtures a shutdown trace deregisters, in order. -/
def deregisteredFixtures (tr : List ShutdownEvent) : List Fixture :=
  tr.filterMap fixtureOfDereg

/-- How the first stages of `main` end (src/main.go lines 39-49). -/
inductive StartupOutcome where
  | usageExit (code : Nat)
  | configErrorExit (code : Nat)
  | continueStartup (config : Config)
  deriving DecidableEq

/-- The first stages of `main` (src/main.go lines 39-49): the help/empty-path
gate prints the usage text and exits 0 before `ParseConfig` runs;
`parseResult` stands for what `ParseConfig(config_path)` would return if it
were reached (a parse error exits 2). -/
def startupGate (help : Bool) (configPath : String) (parseResult : Option Config) :
    StartupOutcome :=
  if help || configPath == "" then StartupOutcome.usageExit 0
  else
    match parseResult with
    | none => StartupOutcome.configErrorExit 2
    | some config => StartupOutcome.continueStartup config

/-- A local-mode configuration with no per-service overrides. -/
def cfgLocal : Config :=
  { consulAddress := "127.0.0.1:8500", logLevel := "info", devMode := false
    globalMode := false, changeThreshold := 3, services := [] }

/-- A global-mode configuration with no per-service overrides. -/
def cfgGlobal : Config :=
  { consulAddress := "127.0.0.1:8500", logLevel := "info", devMode := false
    globalMode := true, changeThreshold := 3, services := [] }

/-- A dev-mode configuration. -/
def cfgDev : Config :=
  { consulAddress := "127.0.0.1:8500", logLevel := "info", devMode := true
    globalMode := false, changeThreshold := 3, services := [] }

/-- A per-service override with distinct-tags watching and an ignore-list. -/
def scTags : ServiceConfig :=
  { name := "web", changeThreshold := 5, distinctTags := true
    ignoredTags := ["skip"] }

/-- A configuration carrying the `scTags` override. -/
def cfgTags : Config :=
  { consulAddress := "127.0.0.1:8500", logLevel := "info", devMode := false
    globalMode := false, changeThreshold := 3, services := [scTags] }

/-- A per-service override with a threshold override but distinct-tags off. -/
def scWhole : ServiceConfig :=
  { name := "web", changeThreshold := 5, distinctTags := false
    ignoredTags := [] }

/-- A configuration carrying the `scWhole` override and global threshold 3. -/
def cfgWhole : Config :=
  { consulAddress := "127.0.0.1:8500", logLevel := "info", devMode := false
    globalMode := false, changeThreshold := 3, services := [scWhole] }

/-! ### Helper lemmas -/

/-- The watches of a bootstrap result: service watches then node watches. -/
theorem bootstrap_watches (config : Config) (services : List (String × List String))
    (nodes : List String) :
    (bootstrap config services nodes).watches
      = (services.map (fun p => watchesForService config p.1 p.2)).flatten
        ++ nodes.map (watchForNode config) := rfl

/-- The registered count of a bootstrap result. -/
theorem bootstrap_count (config : Config) (services : List (String × List String))
    (nodes : List String) :
    (bootstrap config services nodes).shutdownCount
      = (services.map (fun p => watchesForService config p.1 p.2)).flatten.length
        + (if config.globalMode then nodes.length else 0) := rfl

/-- Every element of `sendStopSignals n` is a stop signal. -/
theorem mem_sendStopSignals {e : ShutdownEvent} :
    ∀ {n : Nat}, e ∈ sendStopSignals n → e = ShutdownEvent.stopSignal := by
  intro n
  induction n with
  | zero => intro h; cases h
  | succ n ih =>
    intro h
    rcases List.mem_cons.mp h with h | h
    · exact h
    · exact ih h

/-- `sendStopSignals n` has length `n`. -/
theorem length_sendStopSignals (n : Nat) : (sendStopSignals n).length = n := by
  induction n with
  | zero => rfl
  | succ n ih => simp [sendStopSignals, ih]

/-- Helper for counting: the service watches constructed from a tag list keep
the tag component, so filtering them by entity counts the tag occurrences. -/
theorem length_filter_tag_watches (service : String) (thr : Nat)
    (l : List String) (tag : String) :
    ((l.map (fun t =>
        ({ kind := WatchKind.service service t
           opts := { changeThreshold := thr, hasStopCh := true } } : Watch))).filter
      (fun w => decide (w.kind = WatchKind.service service tag))).length
    = (l.filter (fun t => decide (t = tag))).length := by
  induction l with
  | nil => rfl
  | cons a l ih =>
    by_cases h : a = tag
    · simp [List.filter, h, ih]
    · simp [List.filter, h, ih, WatchKind.service.injEq]

/-- Filtering a list for a non-member keeps nothing. -/
theorem length_filter_eq_zero_of_not_mem {α : Type} [DecidableEq α]
    {l : List α} {a : α} (ha : a ∉ l) :
    (l.filter (fun x => decide (x = a))).length = 0 := by
  simp only [List.length_eq_zero, List.filter_eq_nil_iff, decide_eq_true_eq]
  intro x hx hxa
  exact ha (hxa ▸ hx)

/-- Pre-filtering by a predicate that holds at `tag` does not change how many
elements equal to `tag` remain. -/
theorem length_filter_eq_of_pred_true {l : List String} {p : String → Bool}
    {tag : String} (hp : p tag = true) :
    ((l.filter p).filter (fun t => decide (t = tag))).length
      = (l.filter (fun t => decide (t = tag))).length := by
  induction l with
  | nil => rfl
  | cons a l ih =>
    rw [List.filter_cons]
    by_cases hpa : p a = true
    · rw [if_pos hpa, List.filter_cons, List.filter_cons]
      by_cases ha : decide (a = tag) = true
      · rw [if_pos ha, if_pos ha]
        simp only [List.length_cons, ih]
      · rw [if_neg ha, if_neg ha]
        exact ih
    · rw [if_neg hpa, List.filter_cons]
      by_cases ha : decide (a = tag) = true
      · have ha' : a = tag := of_decide_eq_true ha
        rw [ha'] at hpa
        exact absurd hp hpa
      · rw [if_neg ha]
        exact ih

/-- The connect loop with only failing attempts returns no outcome for any
amount of fuel: it neither proceeds nor exits. -/
theorem connectLoop_all_fail {leaderOk : Nat → Bool}
    (h : ∀ j, leaderOk j = false) (i : Nat) :
    ∀ fuel, connectLoop leaderOk i fuel = none := by
  intro fuel
  induction fuel generalizing i with
  | zero => rfl
  | succ fuel ih => simp [connectLoop, h i, ih]

/-- Stop signals deregister nothing. -/
theorem deregisteredFixtures_sendStopSignals (n : Nat) :
    deregisteredFixtures (sendStopSignals n) = [] := by
  induction n with
  | zero => rfl
  | succ n ih =>
    simp only [deregisteredFixtures] at ih
    simp [sendStopSignals, deregisteredFixtures, List.filterMap_cons,
      fixtureOfDereg, ih]

/-- Every watch a service-loop iteration starts carries the stop channel. -/
theorem watchesForService_hasStopCh (config : Config) (service : String)
    (tags : List String) :
    ∀ w ∈ watchesForService config service tags, w.opts.hasStopCh = true := by
  intro w hw
  unfold watchesForService at hw
  split at hw
  · split at hw
    · rcases List.mem_map.mp hw with ⟨t, _, rfl⟩
      rfl
    · rcases List.mem_cons.mp hw with hw | hw
      · rw [hw]
      · cases hw
  · rcases List.mem_cons.mp hw with hw | hw
    · rw [hw]
    · cases hw

/-- Every watch a service-loop iteration starts watches a service entity named
by that iteration's service. -/
theorem watchesForService_kind (config : Config) (service : String)
    (tags : List String) :
    ∀ w ∈ watchesForService config service tags,
      ∃ t, w.kind = WatchKind.service service t := by
  intro w hw
  unfold watchesForService at hw
  split at hw
  · split at hw
    · rcases List.mem_map.mp hw with ⟨t, _, rfl⟩
      exact ⟨t, rfl⟩
    · rcases List.mem_cons.mp hw with hw | hw
      · exact ⟨"", by rw [hw]⟩
      · cases hw
  · rcases List.mem_cons.mp hw with hw | hw
    · exact ⟨"", by rw [hw]⟩
    · cases hw

/-! ### Claims -/

/-- C1 counterexample: in local mode (`cfgLocal`), the `WatchNode` goroutine
started for the discovered node `node1` is not registered with the Shutdown
Coordinator: its `WatchOptions` carries no stop channel and
`shutdownOpts.count` stays 0, although one watch goroutine was started. -/
theorem C1_counterexample :
    ((bootstrap cfgLocal [] ["node1"]).watches.map (fun w => w.opts.hasStopCh)
        = [false])
    ∧ (bootstrap cfgLocal [] ["node1"]).shutdownCount = 0
    ∧ (bootstrap cfgLocal [] ["node1"]).watches.length = 1 := by
  exact ⟨rfl, rfl, rfl⟩

/-- C1 amended: every `WatchService` goroutine started by the bootstrap is
registered with the Shutdown Coordinator (count incremented by one, stop
channel in its options), but a `WatchNode` goroutine is registered only in
global mode: in local mode its options carry no stop channel and the count is
not incremented.  Consequently the final count equals the number of watches
whose options carry the stop channel. -/
theorem C1_registration (config : Config) (services : List (String × List String))
    (nodes : List String) :
    (bootstrap config services nodes).shutdownCount
      = ((bootstrap config services nodes).watches.filter
          (fun w => w.opts.hasStopCh)).length
    ∧ (∀ w ∈ (bootstrap config services nodes).watches,
        (∃ s t, w.kind = WatchKind.service s t) → w.opts.hasStopCh = true)
    ∧ (∀ w ∈ (bootstrap config services nodes).watches,
        (∃ n, w.kind = WatchKind.node n) →
          w.opts.hasStopCh = config.globalMode) := by
  rw [bootstrap_watches, bootstrap_count]
  refine ⟨?_, ?_, ?_⟩
  · rw [List.filter_append]
    have hsvc : ((services.map (fun p => watchesForService config p.1 p.2)).flatten.filter
        (fun w => w.opts.hasStopCh))
        = (services.map (fun p => watchesForService config p.1 p.2)).flatten := by
      refine List.filter_eq_self.mpr ?_
      intro w hw
      rcases List.mem_flatten.mp hw with ⟨l, hl, hwl⟩
      rcases List.mem_map.mp hl with ⟨p, _, rfl⟩
      exact watchesForService_hasStopCh config p.1 p.2 w hwl
    rw [hsvc]
    have hnode : ((nodes.map (watchForNode config)).filter
        (fun w => w.opts.hasStopCh)).length
        = if config.globalMode then nodes.length else 0 := by
      by_cases hg : config.globalMode
      · rw [if_pos hg]
        have : (nodes.map (watchForNode config)).filter (fun w => w.opts.hasStopCh)
            = nodes.map (watchForNode config) := by
          refine List.filter_eq_self.mpr ?_
          intro w hw
          rcases List.mem_map.mp hw with ⟨n, _, rfl⟩
          simp [watchForNode, hg]
        rw [this, List.length_map]
      · have hg' : config.globalMode = false := by
          simp only [Bool.not_eq_true] at hg
          exact hg
        rw [if_neg hg]
        have : (nodes.map (watchForNode config)).filter (fun w => w.opts.hasStopCh)
            = [] := by
          refine List.filter_eq_nil_iff.mpr ?_
          intro w hw
          rcases List.mem_map.mp hw with ⟨n, _, rfl⟩
          simp [watchForNode, hg']
        rw [this]
        rfl
    rw [List.length_append, hnode]
  · intro w hw hsvc
    rcases List.mem_append.mp hw with hw | hw
    · rcases List.mem_flatten.mp hw with ⟨l, hl, hwl⟩
      rcases List.mem_map.mp hl with ⟨p, _, rfl⟩
      exact watchesForService_hasStopCh config p.1 p.2 w hwl
    · rcases List.mem_map.mp hw with ⟨n, _, rfl⟩
      rcases hsvc with ⟨s, t, hk⟩
      simp [watchForNode] at hk
  · intro w hw hk
    rcases List.mem_append.mp hw with hw | hw
    · rcases List.mem_flatten.mp hw with ⟨l, hl, hwl⟩
      rcases List.mem_map.mp hl with ⟨p, _, rfl⟩
      rcases watchesForService_kind config p.1 p.2 w hwl with ⟨t, ht⟩
      rcases hk with ⟨n, hn⟩
      rw [ht] at hn
      cases hn
    · rcases List.mem_map.mp hw with ⟨n, _, rfl⟩
      rfl

/-- C1 witness: the amended registration law at a concrete global-mode input,
with the inner hypotheses discharged at the node watch for `n1`. -/
theorem C1_registration_witness :
    (bootstrap cfgGlobal [("web", [])] ["n1"]).shutdownCount
      = ((bootstrap cfgGlobal [("web", [])] ["n1"]).watches.filter
          (fun w => w.opts.hasStopCh)).length
    ∧ ({ kind := WatchKind.node "n1"
         opts := { changeThreshold := 3, hasStopCh := true } } : Watch).opts.hasStopCh
        = cfgGlobal.globalMode := by
  refine ⟨(C1_registration cfgGlobal [("web", [])] ["n1"]).1, ?_⟩
  exact (C1_registration cfgGlobal [("web", [])] ["n1"]).2.2
    { kind := WatchKind.node "n1"
      opts := { changeThreshold := 3, hasStopCh := true } }
    (by decide) ⟨"n1", rfl⟩

/-- Recognizer for stop-signal events. -/
def isStopSignal : ShutdownEvent → Bool
  | ShutdownEvent.stopSignal => true
  | _ => false

/-- C2: the shutdown path sends exactly `count * 2` stop signals on the stop
channel before the process exits: the stop-signal events of the shutdown
trace number exactly `opts.count * 2`, for every configuration and every
registered count. -/
theorem C2_stop_signal_count (config : Config) (opts : ShutdownOpts) :
    ((shutdownTrace config opts).filter isStopSignal).length = opts.count * 2 := by
  unfold shutdownTrace
  rw [List.filter_append, List.filter_append]
  have hstops : (sendStopSignals (opts.count * 2)).filter isStopSignal
      = sendStopSignals (opts.count * 2) := by
    refine List.filter_eq_self.mpr ?_
    intro e he
    rw [mem_sendStopSignals he]
    rfl
  have hdereg : ((if config.devMode then
      [ShutdownEvent.checkDeregister "memory usage",
       ShutdownEvent.serviceDeregister "redis",
       ShutdownEvent.serviceDeregister "nginx"]
     else []).filter isStopSignal) = [] := by
    by_cases hd : config.devMode
    · rw [if_pos hd]
      rfl
    · rw [if_neg hd]
      rfl
  rw [hstops, hdereg]
  simp [isStopSignal, length_sendStopSignals]

/-- C3: SIGINT, SIGTERM and SIGQUIT each trigger the same graceful-shutdown
sequence (the same `shutdown` call with the same arguments, hence the same
action trace), and any signal other than those three leaves the process
running with only a log entry. -/
theorem C3_signal_dispatch (config : Config) (opts : ShutdownOpts) (sig : Nat)
    (hint : sig ≠ SIGINT) (hterm : sig ≠ SIGTERM) (hquit : sig ≠ SIGQUIT) :
    handleSignal config opts SIGINT
        = SignalOutcome.shutdownWith (shutdownTrace config opts)
    ∧ handleSignal config opts SIGTERM
        = SignalOutcome.shutdownWith (shutdownTrace config opts)
    ∧ handleSignal config opts SIGQUIT
        = SignalOutcome.shutdownWith (shutdownTrace config opts)
    ∧ handleSignal config opts sig = SignalOutcome.continueRunning := by
  refine ⟨?_, ?_, ?_, ?_⟩
  · simp [handleSignal]
  · simp [handleSignal, SIGINT, SIGTERM]
  · simp [handleSignal, SIGINT, SIGTERM, SIGQUIT]
  · simp [handleSignal, hint, hterm, hquit]

/-- C3 witness: SIGKILL (signal 9) at a concrete configuration only logs and
continues; the three termination signals were dispatched identically. -/
theorem C3_signal_dispatch_witness :
    handleSignal cfgLocal { count := 2 } 9 = SignalOutcome.continueRunning := by
  exact (C3_signal_dispatch cfgLocal { count := 2 } 9
    (by decide) (by decide) (by decide)).2.2.2

/-- C4 counterexample: with every connection attempt failing, the startup
connect loop has produced no outcome at all after 500 retry iterations (about
83 minutes at the ten-second retry cadence): it is still retrying, and since
its body contains no exit path the process never aborts with a non-zero
exit, contrary to the claim. -/
theorem C4_counterexample :
    connectLoop (fun _ => false) 0 500 = none :=
  connectLoop_all_fail (fun _ => rfl) 0 500

/-- C4 amended: if the registry cannot be reached at all (every leader query
fails), the startup connect loop retries indefinitely - for any number of
iterations it has neither proceeded past the loop nor aborted, so no watch
loop starts, but the process never exits with a non-zero code either; the
loop is left only by a successful connection. -/
theorem C4_retry_forever (leaderOk : Nat → Bool)
    (h : ∀ j, leaderOk j = false) (fuel : Nat) :
    connectLoop leaderOk 0 fuel = none :=
  connectLoop_all_fail h 0 fuel

/-- C4 witness: the amended retry-forever law evaluated with 120 iterations of
an always-failing connection. -/
theorem C4_retry_forever_witness :
    connectLoop (fun _ => false) 0 120 = none :=
  C4_retry_forever (fun _ => false) (fun _ => rfl) 120

/-- C5 counterexample: service `web` has its per-service config with the
distinct-tags flag set, and the discovered tag list is `a, a` (a duplicated
tag); the loop starts one watch per occurrence with no deduplication, so two
watches are started for the single non-ignored tag `a` - not exactly one. -/
theorem C5_counterexample :
    ((watchesForService cfgTags "web" ["a", "a"]).filter
        (fun w => decide (w.kind = WatchKind.service "web" "a"))).length = 2 := by
  decide

/-- C5 amended: for a service whose per-service config sets the distinct-tags
flag and whose tag list is non-empty, the bootstrap starts exactly one service
watch per occurrence of each tag not in the ignore-list (hence exactly one per
tag when the tag list has no duplicates), starts no watch for any tag in the
ignore-list, and binds every started watch to the per-service change
threshold. -/
theorem C5_distinct_tag_watches (config : Config) (service : String)
    (tags : List String) (sc : ServiceConfig)
    (hsc : config.getServiceConfig service = some sc)
    (hd : sc.distinctTags = true)
    (hne : 0 < tags.length) :
    (∀ tag, contains sc.ignoredTags tag = false →
       ((watchesForService config service tags).filter
          (fun w => decide (w.kind = WatchKind.service service tag))).length
         = (tags.filter (fun t => decide (t = tag))).length)
    ∧ (∀ tag, contains sc.ignoredTags tag = true →
       ((watchesForService config service tags).filter
          (fun w => decide (w.kind = WatchKind.service service tag))).length = 0)
    ∧ (∀ w ∈ watchesForService config service tags,
        w.opts.changeThreshold = sc.changeThreshold) := by
  have heq : watchesForService config service tags
      = (tags.filter (fun tag => !(contains sc.ignoredTags tag))).map
          (fun tag =>
            ({ kind := WatchKind.service service tag
               opts := { changeThreshold := sc.changeThreshold
                         hasStopCh := true } } : Watch)) := by
    simp only [watchesForService, hsc]
    rw [if_pos ⟨hne, hd⟩]
  refine ⟨?_, ?_, ?_⟩
  · intro tag hnotig
    rw [heq, length_filter_tag_watches]
    exact length_filter_eq_of_pred_true (by simp [hnotig])
  · intro tag hig
    rw [heq, length_filter_tag_watches]
    refine length_filter_eq_zero_of_not_mem ?_
    intro hmem
    have := (List.mem_filter.mp hmem).2
    simp [hig] at this
  · intro w hw
    rw [heq] at hw
    rcases List.mem_map.mp hw with ⟨t, _, rfl⟩
    rfl

/-- C5 witness: concrete distinct-tags service `web` with tags `a` (watched)
and `skip` (ignored): as many watches for `a` as its occurrences in the tag
list, none for `skip`. -/
theorem C5_distinct_tag_watches_witness :
    ((watchesForService cfgTags "web" ["a", "skip"]).filter
        (fun w => decide (w.kind = WatchKind.service "web" "a"))).length
      = ((["a", "skip"] : List String).filter (fun t => decide (t = "a"))).length
    ∧ ((watchesForService cfgTags "web" ["a", "skip"]).filter
        (fun w => decide (w.kind = WatchKind.service "web" "skip"))).length = 0 := by
  refine ⟨?_, ?_⟩
  · exact (C5_distinct_tag_watches cfgTags "web" ["a", "skip"] scTags (by decide)
      rfl (by decide)).1 "a" (by decide)
  · exact (C5_distinct_tag_watches cfgTags "web" ["a", "skip"] scTags (by decide)
      rfl (by decide)).2.1 "skip" (by decide)

/-- C6 counterexample: service `web` has a per-service override with change
threshold 5 but the distinct-tags flag off, and the global threshold is 3;
the single whole-service watch the bootstrap starts for it uses the global
threshold 3, not the per-service override 5, refuting "regardless of whether
the service is watched per-tag or as a whole". -/
theorem C6_counterexample :
    cfgWhole.getServiceConfig "web" = some scWhole
    ∧ scWhole.changeThreshold = 5
    ∧ cfgWhole.changeThreshold = 3
    ∧ (watchesForService cfgWhole "web" ["a"]).map (fun w => w.opts.changeThreshold)
        = [3] := by
  refine ⟨by decide, rfl, rfl, by decide⟩

/-- C6 amended: the per-service override threshold is applied only to the
per-tag watches started when the distinct-tags flag is set and the tag list is
non-empty; a service watched as a whole always receives the global change
threshold, even when it has a per-service override. -/
theorem C6_threshold_selection (config : Config) (service : String)
    (tags : List String) (sc : ServiceConfig)
    (hsc : config.getServiceConfig service = some sc) :
    (0 < tags.length ∧ sc.distinctTags = true →
       ∀ w ∈ watchesForService config service tags,
         w.opts.changeThreshold = sc.changeThreshold)
    ∧ (¬(0 < tags.length ∧ sc.distinctTags = true) →
       ∀ w ∈ watchesForService config service tags,
         w.opts.changeThreshold = config.changeThreshold) := by
  constructor
  · intro hcond w hw
    simp only [watchesForService, hsc] at hw
    rw [if_pos hcond] at hw
    rcases List.mem_map.mp hw with ⟨t, _, rfl⟩
    rfl
  · intro hcond w hw
    simp only [watchesForService, hsc] at hw
    rw [if_neg hcond] at hw
    rcases List.mem_cons.mp hw with hw | hw
    · rw [hw]
    · cases hw

/-- C6 witness: the amended threshold-selection law at the concrete
whole-service configuration of the counterexample. -/
theorem C6_threshold_selection_witness :
    ({ kind := WatchKind.service "web" ""
       opts := { changeThreshold := 3, hasStopCh := true } } : Watch).opts.changeThreshold
      = cfgWhole.changeThreshold := by
  exact (C6_threshold_selection cfgWhole "web" ["a"] scWhole (by decide)).2
    (by decide)
    { kind := WatchKind.service "web" ""
      opts := { changeThreshold := 3, hasStopCh := true } }
    (by decide)

/-- C7: with DevMode on, the fixtures shutdown deregisters are exactly the
fixtures `registerTestServices` registered at startup - the check
"memory usage" and the services "redis" and "nginx" - a register/deregister
round trip leaving the registry as it was; with DevMode off, shutdown
performs no deregistration at all. -/
theorem C7_fixture_round_trip (config : Config) (opts : ShutdownOpts) :
    (config.devMode = true →
       deregisteredFixtures (shutdownTrace config opts) = registeredFixtures)
    ∧ (config.devMode = false →
       deregisteredFixtures (shutdownTrace config opts) = []) := by
  have hstops := deregisteredFixtures_sendStopSignals (opts.count * 2)
  simp only [deregisteredFixtures] at hstops
  constructor
  · intro hd
    unfold shutdownTrace deregisteredFixtures
    rw [if_pos hd]
    simp [List.filterMap_append, hstops, fixtureOfDereg, registeredFixtures,
      registerTestServices, fixtureOfRegister]
  · intro hd
    unfold shutdownTrace deregisteredFixtures
    rw [if_neg (by simp [hd])]
    simp [List.filterMap_append, hstops, fixtureOfDereg]

/-- C7 witness: the round trip at a concrete dev-mode configuration, and the
absence of deregistration at a concrete non-dev configuration. -/
theorem C7_fixture_round_trip_witness :
    deregisteredFixtures (shutdownTrace cfgDev { count := 1 }) = registeredFixtures
    ∧ deregisteredFixtures (shutdownTrace cfgLocal { count := 1 }) = [] := by
  exact ⟨(C7_fixture_round_trip cfgDev { count := 1 }).1 rfl,
         (C7_fixture_round_trip cfgLocal { count := 1 }).2 rfl⟩

/-- The entities of the watches one service-loop iteration starts, with
duplicate-free tags, are duplicate-free. -/
theorem watchesForService_kinds_nodup (config : Config) (service : String)
    {tags : List String} (hnd : tags.Nodup) :
    ((watchesForService config service tags).map (fun w => w.kind)).Nodup := by
  unfold watchesForService
  split
  · split
    · rw [List.map_map]
      refine List.Nodup.map ?_ (hnd.filter _)
      intro a b h
      simpa using h
    · simp
  · simp

/-- C8 counterexample: in global mode with catalog nodes `n1, n1` (a repeated
node name in the discovery result), the bootstrap starts two `WatchNode`
goroutines for the same entity, so the list of watched entities is not
duplicate-free: the claim fails on discovery results with repeated names. -/
theorem C8_counterexample :
    ¬ ((bootstrap cfgGlobal [] ["n1", "n1"]).watches.map
        (fun w => w.kind)).Nodup := by
  decide

/-- C8 amended: the bootstrap performs no deduplication, so repeated tag or
node names in the discovery result yield repeated watches for the same
entity; whenever the discovery result is duplicate-free - service names
pairwise distinct (as keys of the Go map are), every tag list duplicate-free
and the node list duplicate-free - each entity gets at most one watch loop:
the list of watched entities is duplicate-free. -/
theorem C8_unique_watch_per_entity (config : Config)
    (services : List (String × List String)) (nodes : List String)
    (hserv : (services.map Prod.fst).Nodup)
    (htags : ∀ p ∈ services, (Prod.snd p).Nodup)
    (hnodes : nodes.Nodup) :
    ((bootstrap config services nodes).watches.map (fun w => w.kind)).Nodup := by
  rw [bootstrap_watches, List.map_append]
  refine List.nodup_append.mpr ⟨?_, ?_, ?_⟩
  · rw [List.map_flatten, List.map_map]
    refine List.nodup_flatten.mpr ⟨?_, ?_⟩
    · intro l hl
      rcases List.mem_map.mp hl with ⟨p, hp, rfl⟩
      exact watchesForService_kinds_nodup config p.1 (htags p hp)
    · rw [List.pairwise_map]
      have hserv' : services.Pairwise (fun p q => p.1 ≠ q.1) :=
        List.pairwise_map.mp hserv
      refine hserv'.imp ?_
      intro p q hpq
      intro k hkp hkq
      simp only [Function.comp] at hkp hkq
      rcases List.mem_map.mp hkp with ⟨w, hw, rfl⟩
      rcases List.mem_map.mp hkq with ⟨v, hv, hvk⟩
      rcases watchesForService_kind config p.1 p.2 w hw with ⟨t, ht⟩
      rcases watchesForService_kind config q.1 q.2 v hv with ⟨u, hu⟩
      rw [ht] at hvk
      rw [hu] at hvk
      exact hpq (WatchKind.service.inj hvk).1.symm
  · rw [List.map_map]
    refine List.Nodup.map ?_ hnodes
    intro a b h
    simpa [watchForNode] using h
  · intro k hk1 hk2
    rcases List.mem_map.mp hk1 with ⟨w, hw, rfl⟩
    rcases List.mem_flatten.mp hw with ⟨l, hl, hwl⟩
    rcases List.mem_map.mp hl with ⟨p, _, rfl⟩
    rcases watchesForService_kind config p.1 p.2 w hwl with ⟨t, ht⟩
    rcases List.mem_map.mp hk2 with ⟨v, hv, hvk⟩
    rcases List.mem_map.mp hv with ⟨n, _, rfl⟩
    rw [ht] at hvk
    simp [watchForNode] at hvk

/-- C8 witness: the amended uniqueness law at a concrete duplicate-free
discovery result. -/
theorem C8_unique_watch_per_entity_witness :
    ((bootstrap cfgGlobal [("web", ["a"])] ["n1"]).watches.map
        (fun w => w.kind)).Nodup := by
  exact C8_unique_watch_per_entity cfgGlobal [("web", ["a"])] ["n1"]
    (by decide) (by decide) (by decide)

/-- C9: with the help flag set or an empty config path, the first stage of
`main` prints the usage text and exits with status 0 (not an error exit),
and does so independently of whatever `ParseConfig` would have returned -
the outcome is decided before any configuration is read or the registry is
contacted. -/
theorem C9_usage_exit (help : Bool) (configPath : String)
    (parseResult : Option Config)
    (h : help = true ∨ configPath = "") :
    startupGate help configPath parseResult = StartupOutcome.usageExit 0
    ∧ (∀ other : Option Config,
        startupGate help configPath parseResult
          = startupGate help configPath other) := by
  have hcond : (help || configPath == "") = true := by
    rcases h with h | h
    · simp [h]
    · simp [h]
  constructor
  · unfold startupGate
    rw [if_pos hcond]
  · intro other
    unfold startupGate
    rw [if_pos hcond, if_pos hcond]

/-- C9 witness: invoking with the help flag and a non-empty path exits 0 with
the usage text even though a parseable configuration exists. -/
theorem C9_usage_exit_witness :
    startupGate true "alerting.hcl" (some cfgLocal)
      = StartupOutcome.usageExit 0 := by
  exact (C9_usage_exit true "alerting.hcl" (some cfgLocal) (Or.inl rfl)).1

/-- Lists whose every element is unrelated on the right satisfy any pairwise
relation. -/
theorem pairwise_of_forall_right {α : Type} {R : α → α → Prop} {l : List α}
    (h : ∀ b ∈ l, ∀ a, R a b) : l.Pairwise R := by
  induction l with
  | nil => exact List.Pairwise.nil
  | cons x l ih =>
    refine List.Pairwise.cons ?_ (ih ?_)
    · intro b hb
      exact h b (List.mem_cons_of_mem x hb) x
    · intro b hb a
      exact h b (List.mem_cons_of_mem x hb) a

/-- An event with no associated fixture is never a deregistration preceded by
a stop signal, whatever came before it. -/
theorem not_stop_dereg_of_none {a b : ShutdownEvent}
    (h : fixtureOfDereg b = none) :
    ¬(a = ShutdownEvent.stopSignal ∧ (fixtureOfDereg b).isSome = true) := by
  rintro ⟨_, hsome⟩
  rw [h] at hsome
  cases hsome

/-- C10: a graceful shutdown always ends the process with exit status 0: the
last action of the shutdown trace is `os.Exit(0)`, every exit event in the
trace carries status 0 (so the signal loop is never resumed), and no stop
signal is sent anywhere before a dev-mode deregistration - deregistration
strictly precedes the stop-signal fan-out. -/
theorem C10_shutdown_exit (config : Config) (opts : ShutdownOpts) :
    (shutdownTrace config opts).getLast? = some (ShutdownEvent.exitProcess 0)
    ∧ (∀ c, ShutdownEvent.exitProcess c ∈ shutdownTrace config opts → c = 0)
    ∧ (shutdownTrace config opts).Pairwise
        (fun a b =>
          ¬(a = ShutdownEvent.stopSignal ∧ (fixtureOfDereg b).isSome = true)) := by
  refine ⟨?_, ?_, ?_⟩
  · unfold shutdownTrace
    rw [List.getLast?_concat]
  · intro c hc
    unfold shutdownTrace at hc
    rcases List.mem_append.mp hc with hc | hc
    · rcases List.mem_append.mp hc with hc | hc
      · by_cases hd : config.devMode = true
        · rw [if_pos hd] at hc
          simp at hc
        · rw [if_neg hd] at hc
          cases hc
      · exact ShutdownEvent.noConfusion (mem_sendStopSignals hc)
    · rcases List.mem_cons.mp hc with hc | hc
      · exact ShutdownEvent.exitProcess.inj hc
      · cases hc
  · unfold shutdownTrace
    rw [List.pairwise_append]
    refine ⟨?_, ?_, ?_⟩
    · rw [List.pairwise_append]
      refine ⟨?_, ?_, ?_⟩
      · by_cases hd : config.devMode = true
        · rw [if_pos hd]
          refine List.Pairwise.cons ?_
            (List.Pairwise.cons ?_ (List.Pairwise.cons ?_ List.Pairwise.nil))
          · intro b _
            rintro ⟨ha, _⟩
            exact ShutdownEvent.noConfusion ha
          · intro b _
            rintro ⟨ha, _⟩
            exact ShutdownEvent.noConfusion ha
          · intro b _
            rintro ⟨ha, _⟩
            exact ShutdownEvent.noConfusion ha
        · rw [if_neg hd]
          exact List.Pairwise.nil
      · refine pairwise_of_forall_right ?_
        intro b hb a
        rw [mem_sendStopSignals hb]
        exact not_stop_dereg_of_none rfl
      · intro a _ b hb
        rw [mem_sendStopSignals hb]
        exact not_stop_dereg_of_none rfl
    · simp
    · intro a _ b hb
      rcases List.mem_cons.mp hb with hb | hb
      · rw [hb]
        exact not_stop_dereg_of_none rfl
      · cases hb

/-- C10 witness: the shutdown behavior at a dev-mode configuration with one
registered watch, with the exit-status hypothesis discharged at the exit
event of the trace. -/
theorem C10_shutdown_exit_witness :
    (shutdownTrace cfgDev { count := 1 }).getLast?
        = some (ShutdownEvent.exitProcess 0)
    ∧ (0 : Nat) = 0 := by
  refine ⟨(C10_shutdown_exit cfgDev { count := 1 }).1, ?_⟩
  exact (C10_shutdown_exit cfgDev { count := 1 }).2.1 0 (by decide)

end ConsulAlerting
